import Mathlib

/-!
Verification of the supercell cache-header builder (`supercell/api/cache.py`)
and of the content-type provider registry exercised by `test/test_provider.py`.

The cache module is embedded shallowly: the `CacheConfigT` namedtuple becomes a
structure, Python `datetime.timedelta` values become a `Timedelta` structure in
Python's normalized representation, and `compute_cache_header` becomes a pure
function building the same token list and joining it with a comma and a space.
-/

/-- Python `datetime.timedelta` in its normalized representation: after
normalization `days` may be negative while `seconds` lies in `[0, 86400)` and
`microseconds` in `[0, 1000000)`.  The `seconds` field is the sub-day seconds
component, exactly the Python attribute `timedelta.seconds` (NOT the total
duration in seconds, which is `total_seconds()`). -/
structure Timedelta where
  days : Int
  seconds : Nat
  microseconds : Nat
deriving DecidableEq, Repr

/-- Python truthiness of a `timedelta`: falsy exactly when it equals
`timedelta(0)`, i.e. all components are zero. -/
def Timedelta.toBool (t : Timedelta) : Bool :=
  t.days != 0 || t.seconds != 0 || t.microseconds != 0

/-- The integer total seconds of a whole-second duration,
`days * 86400 + seconds` (what Python's `timedelta.total_seconds()` returns for
durations without a fractional part).  This renders the specification's phrase
"integer total seconds of `max_age`"; the source instead reads the `seconds`
attribute. -/
def Timedelta.total_seconds (t : Timedelta) : Int :=
  t.days * 86400 + (t.seconds : Int)

/-- Python truthiness of the optional `s_max_age` field
(`if cache_config.s_max_age:`): `None` is falsy and a zero duration is falsy. -/
def optTimedeltaToBool : Option Timedelta → Bool
  | none => false
  | some t => t.toBool

/-- The `CacheConfigT` namedtuple from `supercell/api/cache.py`.  The Python
field `private` is spelled `private_` here because `private` is a Lean
keyword. -/
structure CacheConfigT where
  max_age : Timedelta
  s_max_age : Option Timedelta
  public : Bool
  private_ : Bool
  no_cache : Bool
  no_store : Bool
  must_revalidate : Bool
  proxy_revalidate : Bool
deriving DecidableEq, Repr

/-- The `CacheConfig` helper from the source: it builds the namedtuple and
performs no validation. -/
def CacheConfig (max_age : Timedelta) (s_max_age : Option Timedelta)
    (public private_ no_cache no_store must_revalidate proxy_revalidate : Bool) :
    CacheConfigT :=
  ⟨max_age, s_max_age, public, private_, no_cache, no_store, must_revalidate,
   proxy_revalidate⟩

/-- Calling `CacheConfig` with only `max_age`, every other parameter left at its
Python default: `s_max_age=None`, `public=False`, `private=False`,
`no_cache=False`, `no_store=False`, `must_revalidate=True`,
`proxy_revalidate=False`. -/
def CacheConfigDefault (max_age : Timedelta) : CacheConfigT :=
  CacheConfig max_age none false false false false true false

/-- Python's `', '.join` on a list of strings. -/
def joinComma : List String → String
  | [] => ""
  | [s] => s
  | s :: rest => s ++ ", " ++ joinComma rest

/-- The `params` list built inside `compute_cache_header`, one entry per
`params.append` of the source, in source order.  `max-age` is appended
unconditionally from the `seconds` attribute; `s-max-age` is guarded by the
truthiness of `s_max_age`; the six boolean directives are guarded by their
flags. -/
def computeCacheParams (c : CacheConfigT) : List String :=
  ["max-age=" ++ toString c.max_age.seconds]
  ++ (match c.s_max_age with
      | some t => if t.toBool then ["s-max-age=" ++ toString t.seconds] else []
      | none => [])
  ++ (if c.public then ["public"] else [])
  ++ (if c.private_ then ["private"] else [])
  ++ (if c.no_cache then ["no-cache"] else [])
  ++ (if c.no_store then ["no-store"] else [])
  ++ (if c.must_revalidate then ["must-revalidate"] else [])
  ++ (if c.proxy_revalidate then ["proxy-revalidate"] else [])

/-- `compute_cache_header` from the source: build the `params` list and join it
with `', '`. -/
def compute_cache_header (c : CacheConfigT) : String :=
  joinComma (computeCacheParams c)

example : compute_cache_header (CacheConfigDefault ⟨0, 600, 0⟩) =
    "max-age=600, must-revalidate" := by decide

example : compute_cache_header (CacheConfig ⟨0, 600, 0⟩ none true false false
    false true false) = "max-age=600, public, must-revalidate" := by decide

example : compute_cache_header (CacheConfigDefault ⟨2, 0, 0⟩) =
    "max-age=0, must-revalidate" := by decide

/-! Helper lemmas about the token list. -/

/-- Membership in a conditional singleton. -/
lemma mem_ite_singleton {α : Type} (s x : α) (b : Bool) :
    (s ∈ if b then [x] else ([] : List α)) ↔ (b = true ∧ s = x) := by
  cases b <;> simp

/-- Characterization of the members of the `params` list. -/
lemma mem_computeCacheParams_iff (c : CacheConfigT) (s : String) :
    s ∈ computeCacheParams c ↔
      s = "max-age=" ++ toString c.max_age.seconds
      ∨ (∃ t, c.s_max_age = some t ∧ t.toBool = true ∧
           s = "s-max-age=" ++ toString t.seconds)
      ∨ (c.public = true ∧ s = "public")
      ∨ (c.private_ = true ∧ s = "private")
      ∨ (c.no_cache = true ∧ s = "no-cache")
      ∨ (c.no_store = true ∧ s = "no-store")
      ∨ (c.must_revalidate = true ∧ s = "must-revalidate")
      ∨ (c.proxy_revalidate = true ∧ s = "proxy-revalidate") := by
  unfold computeCacheParams
  cases hs : c.s_max_age with
  | none => simp [List.mem_append, mem_ite_singleton]
  | some t => cases htb : t.toBool <;>
      simp [List.mem_append, mem_ite_singleton, htb]

/-- A string that begins with the characters of `"s-max-age="` differs from any
string whose first character is not `s`. -/
lemma smax_append_ne (x : String) (t : String) (ht : t.data.head? ≠ some 's') :
    "s-max-age=" ++ x ≠ t := by
  intro h
  apply ht
  rw [← h]
  simp [String.data_append]

/-- The literal `"must-revalidate"` is not a `max-age` token. -/
lemma must_revalidate_ne_maxage (y : String) :
    ("must-revalidate" : String) ≠ "max-age=" ++ y := by
  intro h
  have h2 := congrArg String.data h
  simp [String.data_append] at h2

/-- The literal `"must-revalidate"` is not an `s-max-age` token. -/
lemma must_revalidate_ne_smax (y : String) :
    ("must-revalidate" : String) ≠ "s-max-age=" ++ y := by
  intro h
  have h2 := congrArg String.data h
  simp [String.data_append] at h2

/-- An `s-max-age` token is in the `params` list exactly when `s_max_age` is a
truthy duration and the token renders its `seconds` attribute. -/
lemma smax_mem_iff (c : CacheConfigT) (n : Nat) :
    (("s-max-age=" ++ toString n) ∈ computeCacheParams c) ↔
      ∃ t, c.s_max_age = some t ∧ t.toBool = true ∧
        "s-max-age=" ++ toString n = "s-max-age=" ++ toString t.seconds := by
  rw [mem_computeCacheParams_iff]
  constructor
  · rintro (h | ⟨t, hst, htb, heq⟩ | ⟨_, h⟩ | ⟨_, h⟩ | ⟨_, h⟩ | ⟨_, h⟩ |
      ⟨_, h⟩ | ⟨_, h⟩)
    · exact absurd h (smax_append_ne _ _ (by simp [String.data_append]))
    · exact ⟨t, hst, htb, heq⟩
    · exact absurd h (smax_append_ne _ _ (by simp))
    · exact absurd h (smax_append_ne _ _ (by simp))
    · exact absurd h (smax_append_ne _ _ (by simp))
    · exact absurd h (smax_append_ne _ _ (by simp))
    · exact absurd h (smax_append_ne _ _ (by simp))
    · exact absurd h (smax_append_ne _ _ (by simp))
  · rintro ⟨t, hst, htb, heq⟩
    exact Or.inr (Or.inl ⟨t, hst, htb, heq⟩)

/-- Joining a non-empty list never shortens its first element. -/
lemma joinComma_cons_length (s : String) (l : List String) :
    s.length ≤ (joinComma (s :: l)).length := by
  cases l with
  | nil => simp [joinComma]
  | cons a rest =>
      rw [show joinComma (s :: a :: rest) = s ++ ", " ++ joinComma (a :: rest)
        from rfl, String.length_append, String.length_append]
      omega

/-! The claims about the cache-header builder. -/

/-- C2: the tokens of `compute_cache_header` appear in the fixed order
max-age, s-max-age, public, private, no-cache, no-store, must-revalidate,
proxy-revalidate, each omitted when its triggering condition is false, joined
by a comma and a space.  The right-hand side spells out the specification's
ordered token list. -/
theorem claim_C2_token_fixed_order (c : CacheConfigT) :
    compute_cache_header c = joinComma (List.filterMap id
      [some ("max-age=" ++ toString c.max_age.seconds),
       (match c.s_max_age with
        | some t =>
            if t.toBool then some ("s-max-age=" ++ toString t.seconds) else none
        | none => none),
       (if c.public then some "public" else none),
       (if c.private_ then some "private" else none),
       (if c.no_cache then some "no-cache" else none),
       (if c.no_store then some "no-store" else none),
       (if c.must_revalidate then some "must-revalidate" else none),
       (if c.proxy_revalidate then some "proxy-revalidate" else none)]) := by
  obtain ⟨ma, sma, pub, priv, nc, ns, mr, pr⟩ := c
  unfold compute_cache_header computeCacheParams
  congr 1
  cases sma with
  | none =>
      cases pub <;> cases priv <;> cases nc <;> cases ns <;> cases mr <;>
        cases pr <;> simp
  | some t =>
      cases htb : t.toBool <;> cases pub <;> cases priv <;> cases nc <;>
        cases ns <;> cases mr <;> cases pr <;> simp [htb]

/-- C3: with only `max_age` given and every other parameter at its Python
default, the header is exactly `max-age=<N>, must-revalidate`, `N` being the
rendered seconds of `max_age`. -/
theorem claim_C3_default_header (td : Timedelta) :
    compute_cache_header (CacheConfigDefault td) =
      "max-age=" ++ toString td.seconds ++ ", must-revalidate" := by
  simp [compute_cache_header, computeCacheParams, CacheConfigDefault,
    CacheConfig, joinComma, String.append_assoc]

/-- C4: the output carries an `s-max-age` token exactly when `s_max_age` is
set, that is non-null and not a zero duration, and the token then renders the
`seconds` attribute of `s_max_age`. -/
theorem claim_C4_smax_iff (c : CacheConfigT) :
    ((∃ n : Nat, ("s-max-age=" ++ toString n) ∈ computeCacheParams c) ↔
      optTimedeltaToBool c.s_max_age = true)
    ∧ (∀ t : Timedelta, c.s_max_age = some t →
        (("s-max-age=" ++ toString t.seconds) ∈ computeCacheParams c ↔
          t.toBool = true)) := by
  constructor
  · constructor
    · rintro ⟨n, hmem⟩
      rw [smax_mem_iff] at hmem
      obtain ⟨t, hst, htb, _⟩ := hmem
      rw [hst]
      exact htb
    · intro hflag
      cases hs : c.s_max_age with
      | none => rw [hs] at hflag; exact absurd hflag (by simp [optTimedeltaToBool])
      | some t =>
          rw [hs] at hflag
          exact ⟨t.seconds, (smax_mem_iff c t.seconds).mpr ⟨t, hs, hflag, rfl⟩⟩
  · intro t hst
    constructor
    · intro hmem
      rw [smax_mem_iff] at hmem
      obtain ⟨u, hsu, hub, _⟩ := hmem
      rw [hst] at hsu
      injection hsu with h
      rw [← h] at hub
      exact hub
    · intro htb
      exact (smax_mem_iff c t.seconds).mpr ⟨t, hst, htb, rfl⟩

/-- C5: the output carries the `must-revalidate` token exactly when the
`must_revalidate` flag is true; with the flag false the token is absent. -/
theorem claim_C5_must_revalidate_iff (c : CacheConfigT) :
    ("must-revalidate" ∈ computeCacheParams c) ↔ c.must_revalidate = true := by
  rw [mem_computeCacheParams_iff]
  constructor
  · rintro (h | ⟨t, _, _, h⟩ | ⟨_, h⟩ | ⟨_, h⟩ | ⟨_, h⟩ | ⟨_, h⟩ | ⟨hm, _⟩ |
      ⟨_, h⟩)
    · exact absurd h (must_revalidate_ne_maxage _)
    · exact absurd h (must_revalidate_ne_smax _)
    · exact absurd h (by simp)
    · exact absurd h (by simp)
    · exact absurd h (by simp)
    · exact absurd h (by simp)
    · exact hm
    · exact absurd h (by simp)
  · intro hm
    exact Or.inr (Or.inr (Or.inr (Or.inr (Or.inr (Or.inr (Or.inl ⟨hm, rfl⟩))))))

/-- C9: `compute_cache_header` is deterministic; two builds from the same
`CacheConfigT` value give identical strings.  The embedding is pure because the
source only appends to a local list before joining it. -/
theorem claim_C9_deterministic (c d : CacheConfigT) (h : c = d) :
    compute_cache_header c = compute_cache_header d := by
  rw [h]

/-- Witness for C9 at a concrete ten-minute configuration. -/
theorem claim_C9_deterministic_witness :
    compute_cache_header (CacheConfigDefault ⟨0, 600, 0⟩) =
      compute_cache_header (CacheConfigDefault ⟨0, 600, 0⟩) :=
  claim_C9_deterministic (CacheConfigDefault ⟨0, 600, 0⟩)
    (CacheConfigDefault ⟨0, 600, 0⟩) rfl

/-- C10: the output always starts with the `max-age` token and is non-empty,
also for a zero `max_age` duration; an `s-max-age` of zero duration is instead
suppressed. -/
theorem claim_C10_first_token_max_age (c : CacheConfigT) :
    (computeCacheParams c).head? =
        some ("max-age=" ++ toString c.max_age.seconds)
    ∧ compute_cache_header c ≠ ""
    ∧ (∀ t : Timedelta, c.s_max_age = some t → t.toBool = false →
        ∀ n : Nat, ("s-max-age=" ++ toString n) ∉ computeCacheParams c) := by
  have hh : (computeCacheParams c).head? =
      some ("max-age=" ++ toString c.max_age.seconds) := by
    unfold computeCacheParams
    rfl
  refine ⟨hh, ?_, ?_⟩
  · intro hempty
    have hlen : ("max-age=" ++ toString c.max_age.seconds).length ≤
        (joinComma (computeCacheParams c)).length := by
      rcases hc : computeCacheParams c with _ | ⟨a, tail⟩
      · rw [hc] at hh
        exact absurd hh (by simp)
      · rw [hc] at hh
        simp only [List.head?_cons, Option.some.injEq] at hh
        rw [← hh]
        exact joinComma_cons_length a tail
    rw [← show compute_cache_header c = joinComma (computeCacheParams c)
      from rfl, hempty] at hlen
    rw [String.length_append] at hlen
    rw [show ("max-age=" : String).length = 8 from rfl,
      show ("" : String).length = 0 from rfl] at hlen
    omega
  · intro t hst htb n hmem
    rw [smax_mem_iff] at hmem
    obtain ⟨u, hsu, hub, _⟩ := hmem
    rw [hst] at hsu
    injection hsu with h
    rw [← h] at hub
    rw [htb] at hub
    exact Bool.noConfusion hub

/-- C1 names the integer total seconds; the source reads the Python `seconds`
attribute, which is only the sub-day component.  At `max_age = timedelta(days=2)`
the code renders `max-age=0` although the total seconds are 172800. -/
theorem claim_C1_seconds_attribute_divergence :
    compute_cache_header (CacheConfigDefault ⟨2, 0, 0⟩) =
        "max-age=0, must-revalidate"
    ∧ Timedelta.total_seconds ⟨2, 0, 0⟩ = 172800 := by
  exact ⟨by decide, by decide⟩

/-! The construction boundary for C7: `max_age` may be `None` in Python, and
`CacheConfig` performs no validation, so the failure happens only when
`compute_cache_header` reads the `seconds` attribute of `None`. -/

/-- Variant of `CacheConfigT` in which `max_age` may be `None`, as at the
Python call boundary. -/
structure CacheConfigOptT where
  max_age : Option Timedelta
  s_max_age : Option Timedelta
  public : Bool
  private_ : Bool
  no_cache : Bool
  no_store : Bool
  must_revalidate : Bool
  proxy_revalidate : Bool
deriving DecidableEq, Repr

/-- Construction of the namedtuple at that boundary.  The Python `CacheConfig`
validates nothing and always returns the tuple; the `Except` result type only
makes the claimed construction-time failure statable, and the source never
takes the error branch. -/
def CacheConfigOpt (max_age : Option Timedelta) (s_max_age : Option Timedelta)
    (public private_ no_cache no_store must_revalidate proxy_revalidate : Bool) :
    Except String CacheConfigOptT :=
  Except.ok ⟨max_age, s_max_age, public, private_, no_cache, no_store,
    must_revalidate, proxy_revalidate⟩

/-- Header computation at that boundary: the first statement of the source
evaluates `cache_config.max_age.seconds`, which raises `AttributeError` when
`max_age` is `None`; otherwise the computation is the one of
`compute_cache_header`. -/
def compute_cache_header_opt (c : CacheConfigOptT) : Except String String :=
  match c.max_age with
  | none => Except.error "AttributeError: NoneType has no attribute seconds"
  | some ma =>
      Except.ok (compute_cache_header
        ⟨ma, c.s_max_age, c.public, c.private_, c.no_cache, c.no_store,
         c.must_revalidate, c.proxy_revalidate⟩)

/-- Counterexample to C7 as stated: constructing the directives value with a
null `max_age` succeeds, so nothing fails at construction time; the error
surfaces only when the header is computed. -/
theorem claim_C7_counterexample :
    CacheConfigOpt none none false false false false true false =
        Except.ok ⟨none, none, false, false, false, false, true, false⟩
    ∧ compute_cache_header_opt
          ⟨none, none, false, false, false, false, true, false⟩ =
        Except.error "AttributeError: NoneType has no attribute seconds" :=
  ⟨rfl, rfl⟩

/-- C7 amended: with `max_age` null, construction succeeds unvalidated, and the
failure is raised when the header is computed; no header string with a fallback
value is ever produced. -/
theorem claim_C7_null_max_age_fails_at_build (s_max_age : Option Timedelta)
    (public private_ no_cache no_store must_revalidate proxy_revalidate : Bool) :
    CacheConfigOpt none s_max_age public private_ no_cache no_store
        must_revalidate proxy_revalidate =
      Except.ok ⟨none, s_max_age, public, private_, no_cache, no_store,
        must_revalidate, proxy_revalidate⟩
    ∧ compute_cache_header_opt
        ⟨none, s_max_age, public, private_, no_cache, no_store,
         must_revalidate, proxy_revalidate⟩ =
      Except.error "AttributeError: NoneType has no attribute seconds" :=
  ⟨rfl, rfl⟩

/-! Decorator boundary for C6.  The handler base class is an external
collaborator of the repository; only its `set_header(name, value)` capability
(specification sections 4.1 and 6) is modelled, and it touches nothing but the
response headers. -/

/-- State of the external request-handler object: response headers, status
code, body, and arbitrary further state `σ`. -/
structure HandlerState (σ : Type) where
  headers : List (String × String)
  status : Nat
  body : String
  rest : σ

/-- The external handler capability `set_header(name, value)`: it records the
header name and value on the response and changes nothing else. -/
def set_header {σ : Type} (self : HandlerState σ) (name value : String) :
    HandlerState σ :=
  { self with headers := self.headers ++ [(name, value)] }

/-- The `cache` decorator from the source.  Applied to the wrapped handler
method `fn`, it yields the function `_func` that builds the `CacheConfigT`
from the decorator parameters, sets the `Cache-Control` header on `self`, and
then calls `fn` with `self` and every positional and keyword argument
unchanged, returning its result.  Positional and keyword arguments are the
abstract types `α` and `κ`; the handler result is `ρ`. -/
def cache {σ α κ ρ : Type} (max_age : Timedelta) (s_max_age : Option Timedelta)
    (public private_ no_cache no_store must_revalidate proxy_revalidate : Bool)
    (fn : HandlerState σ → α → κ → HandlerState σ × ρ) :
    HandlerState σ → α → κ → HandlerState σ × ρ :=
  fun self args kwargs =>
    fn (set_header self "Cache-Control"
         (compute_cache_header (CacheConfig max_age s_max_age public private_
            no_cache no_store must_revalidate proxy_revalidate)))
      args kwargs

/-- C6: the decorated function first sets the `Cache-Control` header computed
from the decorator's directives on the handler, then invokes the wrapped
handler with all positional and keyword arguments unchanged and returns its
result; and `set_header` changes neither status code, nor body, nor any other
handler state. -/
theorem claim_C6_decorator_frame (σ α κ ρ : Type)
    (max_age : Timedelta) (s_max_age : Option Timedelta)
    (public private_ no_cache no_store must_revalidate proxy_revalidate : Bool)
    (fn : HandlerState σ → α → κ → HandlerState σ × ρ)
    (self : HandlerState σ) (args : α) (kwargs : κ) :
    cache max_age s_max_age public private_ no_cache no_store must_revalidate
        proxy_revalidate fn self args kwargs =
      fn (set_header self "Cache-Control"
           (compute_cache_header (CacheConfig max_age s_max_age public private_
              no_cache no_store must_revalidate proxy_revalidate)))
        args kwargs
    ∧ ∀ (name value : String),
        (set_header self name value).status = self.status
        ∧ (set_header self name value).body = self.body
        ∧ (set_header self name value).rest = self.rest :=
  ⟨rfl, fun _ _ => ⟨rfl, rfl, rfl⟩⟩

/-! Provider registry for C8.  The classes `ContentType`, `ProviderBase` and
`JsonProvider` live in repository modules that are not under `src/`; only the
test file exercising them is.  They are therefore modelled from the
specification (sections 3, 4.2 and 6). -/

/-- Modelled from the spec: the `ContentType` value of
`supercell.api.metatypes` (not under `src/`), a registry key with a bare MIME
type, an optional vendor and an optional version; the version is kept as the
string rendered inside the MIME parameter. -/
structure ContentType where
  mime_type : String
  vendor : Option String
  version : Option String
deriving DecidableEq, Repr

/-- Modelled from the spec: the provider types registered in the test file;
`JsonProvider` is the default provider of `application/json` and the other two
carry the `supercell` vendor, the second also the version `1.0`. -/
inductive ProviderType where
  | JsonProvider
  | MoreDetailedJsonProvider
  | JsonProviderWithVendorAndVersion
deriving DecidableEq, Repr

/-- Split of a character list at every occurrence of the character `c`
(Python `str.split(c)` on the decomposed string). -/
def splitOnChar (c : Char) : List Char → List (List Char)
  | [] => [[]]
  | x :: xs =>
      if x = c then [] :: splitOnChar c xs
      else match splitOnChar c xs with
        | [] => [[x]]
        | g :: gs => (x :: g) :: gs

/-- Split of a character list at every occurrence of the two-character
separator `-v`, which the consumed MIME format uses to mark the version. -/
def splitDashV : List Char → List (List Char)
  | [] => [[]]
  | '-' :: 'v' :: xs => [] :: splitDashV xs
  | x :: xs =>
      match splitDashV xs with
      | [] => [[x]]
      | g :: gs => (x :: g) :: gs

/-- Modelled from the spec: parsing of the consumed MIME strings of
specification section 6 — `application/json` bare,
`application/vnd.[vendor]+json` vendor-qualified, and
`application/vnd.[vendor]-v[version]+json` vendor and version qualified. -/
def parseContentType (s : String) : Option ContentType :=
  match splitOnChar '/' s.data with
  | [ty, sub] =>
    match sub with
    | 'v' :: 'n' :: 'd' :: '.' :: rest =>
      match splitOnChar '+' rest with
      | [vendorPart, subty] =>
        match splitDashV vendorPart with
        | [v] => some ⟨String.mk (ty ++ '/' :: subty), some (String.mk v), none⟩
        | [v, ver] => some ⟨String.mk (ty ++ '/' :: subty), some (String.mk v),
            some (String.mk ver)⟩
        | _ => none
      | _ => none
    | _ => some ⟨s, none, none⟩
  | _ => none

/-- Modelled from the spec: the registrations performed at class-definition
time by the test file — the default `application/json` provider and the two
`supercell` vendor providers. -/
def providerRegistry : List (ContentType × ProviderType) :=
  [(⟨"application/json", none, none⟩, ProviderType.JsonProvider),
   (⟨"application/json", some "supercell", none⟩,
     ProviderType.MoreDetailedJsonProvider),
   (⟨"application/json", some "supercell", some "1.0"⟩,
     ProviderType.JsonProviderWithVendorAndVersion)]

/-- Lookup of an exact `ContentType` key among the registrations. -/
def lookupContentType :
    List (ContentType × ProviderType) → ContentType → Option ProviderType
  | [], _ => none
  | p :: rest, key =>
      if p.1 = key then some p.2 else lookupContentType rest key

/-- Modelled from the spec: `ProviderBase.map_provider` (not under `src/`)
resolves a negotiated content-type string by the precedence of specification
section 4.2 — exact `mime_type` with vendor and version first, then
`mime_type` with vendor only, then the bare `mime_type` default. -/
def map_provider (ctype : String) : Option ProviderType :=
  match parseContentType ctype with
  | none => none
  | some ct =>
    match lookupContentType providerRegistry
        ⟨ct.mime_type, ct.vendor, ct.version⟩ with
    | some p => some p
    | none =>
      match lookupContentType providerRegistry
          ⟨ct.mime_type, ct.vendor, none⟩ with
      | some p => some p
      | none => lookupContentType providerRegistry ⟨ct.mime_type, none, none⟩

/-- Any hit in the registry is either the default provider under a vendor-free
key, or carries the `supercell` vendor in its key. -/
lemma lookup_registry_vendor (key : ContentType) (p : ProviderType)
    (h : lookupContentType providerRegistry key = some p) :
    (p = ProviderType.JsonProvider ∧ key.vendor = none) ∨
      key.vendor = some "supercell" := by
  simp only [providerRegistry, lookupContentType] at h
  by_cases h1 : (⟨"application/json", none, none⟩ : ContentType) = key
  · left
    rw [if_pos h1] at h
    injection h with hp
    exact ⟨hp.symm, by rw [← h1]⟩
  · rw [if_neg h1] at h
    by_cases h2 :
        (⟨"application/json", some "supercell", none⟩ : ContentType) = key
    · right
      rw [← h2]
    · rw [if_neg h2] at h
      by_cases h3 :
          (⟨"application/json", some "supercell", some "1.0"⟩ : ContentType)
            = key
      · right
        rw [← h3]
      · rw [if_neg h3] at h
        exact absurd h (by simp)

/-- C8: the three registered strings resolve to their respective providers,
and a vendor-specific provider is only returned for a query whose parsed
vendor is `supercell` — a lookup for an unregistered vendor never resolves to
a different vendor's provider. -/
theorem claim_C8_provider_resolution :
    map_provider "application/json" = some ProviderType.JsonProvider
    ∧ map_provider "application/vnd.supercell+json" =
        some ProviderType.MoreDetailedJsonProvider
    ∧ map_provider "application/vnd.supercell-v1.0+json" =
        some ProviderType.JsonProviderWithVendorAndVersion
    ∧ ∀ (s : String) (p : ProviderType), map_provider s = some p →
        p ≠ ProviderType.JsonProvider →
        ∃ ct, parseContentType s = some ct ∧ ct.vendor = some "supercell" := by
  refine ⟨by decide, by decide, by decide, ?_⟩
  intro s p h hne
  unfold map_provider at h
  cases hp : parseContentType s with
  | none => rw [hp] at h; exact absurd h (by simp)
  | some ct =>
      rw [hp] at h
      dsimp only at h
      refine ⟨ct, rfl, ?_⟩
      cases h1 : lookupContentType providerRegistry
          ⟨ct.mime_type, ct.vendor, ct.version⟩ with
      | some q =>
          rw [h1] at h
          injection h with hq
          subst hq
          rcases lookup_registry_vendor _ _ h1 with ⟨hJ, _⟩ | hv
          · exact absurd hJ hne
          · exact hv
      | none =>
          rw [h1] at h
          cases h2 : lookupContentType providerRegistry
              ⟨ct.mime_type, ct.vendor, none⟩ with
          | some q =>
              rw [h2] at h
              injection h with hq
              subst hq
              rcases lookup_registry_vendor _ _ h2 with ⟨hJ, _⟩ | hv
              · exact absurd hJ hne
              · exact hv
          | none =>
              rw [h2] at h
              rcases lookup_registry_vendor _ _ h with ⟨hJ, _⟩ | hv
              · exact absurd hJ hne
              · exact absurd hv (by simp)
